import Mathlib

/-!
Verification of the traylinx-auth-client-js authentication SDK.

This file gives a shallow embedding, in Lean 4, of the parts of the
JavaScript sources relevant to the token lifecycle, header construction,
dual-mode auth detection, retry policy, backoff, token-response
validation and constructor defaulting, and proves (or refutes) the
specification claims about them.

Source files:
- `src/client.js` (the `TraylinxAuthClient` class),
- `src/tokenManager.js` (the deprecated `TokenManager` class),
- `src/validation.js` (the Joi configuration schema).

JavaScript numbers are modelled as `Int` (all values involved are
integral) except for the backoff computation, which mixes `Math.random()`
into the arithmetic and is modelled over `ℚ`.  JavaScript JSON values
are modelled by the inductive `JSVal` below, with property access on
`null`/`undefined` raising (as in JS) and property access on any other
non-object value yielding `undefined`.
-/

namespace TraylinxAuth

/-- A JavaScript value as it appears in a parsed JSON response body.
`vUndefined` is the result of reading an absent property. -/
inductive JSVal where
  | vNull
  | vUndefined
  | vBool (b : Bool)
  | vStr (s : String)
  | vNum (n : Int)
  | vObj (fields : List (String × JSVal))

/-- JavaScript property access `v.k`.  On `null` or `undefined` it throws a
`TypeError` (modelled as `Except.error ()`); on an object it returns the
field or `undefined`; on any other primitive it returns `undefined`. -/
def JSVal.getProp : JSVal → String → Except Unit JSVal
  | .vNull, _ => .error ()
  | .vUndefined, _ => .error ()
  | .vObj fields, k => .ok ((fields.lookup k).getD .vUndefined)
  | _, _ => .ok .vUndefined

/-- JavaScript strict equality `v === true`. -/
def JSVal.strictEqTrue : JSVal → Bool
  | .vBool true => true
  | _ => false

/-- JavaScript truthiness of an optional string-valued expression
(`undefined`, `null` and the empty string are falsy). -/
def strTruthy : Option String → Bool
  | none => false
  | some s => s ≠ ""

/-- A member of the error taxonomy of `src/errors.js`, as observed through
its class name (`name`), error `code`, HTTP `status` and `message`. -/
structure TError where
  name : String
  code : String
  status : Int
  message : String
deriving DecidableEq, Repr

/-! ### Header construction (`client.js` lines 337-357 and 515-530) -/

/-- `TraylinxAuthClient.getRequestHeaders` (client.js 337-347): the header
object returned on success, as a function of the two token values and the
agent user id the awaited accessors produced. -/
def getRequestHeaders (accessToken agentSecretToken agentUserId : String) :
    List (String × String) :=
  [("Authorization", "Bearer " ++ accessToken),
   ("X-Agent-Secret-Token", agentSecretToken),
   ("X-Agent-User-Id", agentUserId)]

/-- `TraylinxAuthClient.getAgentRequestHeaders` (client.js 349-357): the
header object returned on success. -/
def getAgentRequestHeaders (agentSecretToken agentUserId : String) :
    List (String × String) :=
  [("X-Agent-Secret-Token", agentSecretToken),
   ("X-Agent-User-Id", agentUserId)]

/-- `TraylinxAuthClient.getA2AHeaders` (client.js 515-530): the header
object returned on success. -/
def getA2AHeaders (agentSecretToken agentUserId : String) :
    List (String × String) :=
  [("Authorization", "Bearer " ++ agentSecretToken),
   ("X-Agent-User-Id", agentUserId)]

/-! ### Inbound header normalization and dual-auth detection
(`client.js` lines 532-588)

The JavaScript string methods are embedded over `List Char` (the
position-based core `String` primitives do not reduce in the kernel).
The header names involved are ASCII, for which the ASCII lower-casing
below coincides with `String.prototype.toLowerCase`. -/

/-- ASCII lower-casing of one character (`toLowerCase` on the ASCII
header names used by the client). -/
def lowerChar (c : Char) : Char :=
  if 65 ≤ c.toNat ∧ c.toNat ≤ 90 then Char.ofNat (c.toNat + 32) else c

/-- `String.prototype.toLowerCase` on ASCII strings. -/
def jsToLower (s : String) : String := ⟨s.data.map lowerChar⟩

/-- Character-list prefix test. -/
def prefixTest : List Char → List Char → Bool
  | [], _ => true
  | _ :: _, [] => false
  | a :: as, b :: bs => a == b && prefixTest as bs

/-- `String.prototype.startsWith` (case-sensitive, literal). -/
def jsStartsWith (s pre : String) : Bool := prefixTest pre.data s.data

/-- Dropping the first `n` characters of a string. -/
def jsDrop (s : String) (n : Nat) : String := ⟨s.data.drop n⟩

/-- The whitespace characters `String.prototype.trim` strips, restricted
to those that can appear in HTTP header values. -/
def jsWhitespace (c : Char) : Bool := c ∈ [' ', '\t', '\n', '\r']

/-- `String.prototype.trim`. -/
def jsTrim (s : String) : String :=
  ⟨((s.data.dropWhile jsWhitespace).reverse.dropWhile jsWhitespace).reverse⟩

/-- The lower-cased-key lookup both `validateA2ARequest` and
`detectAuthMode` perform: every key of the inbound header object is
lower-cased and assigned into a fresh object (later assignments of a
colliding lower-cased key overwrite earlier ones), then the given name is
read from that object. -/
def normalizedLookup (headers : List (String × String)) (name : String) :
    Option String :=
  ((headers.map (fun kv => (jsToLower kv.1, kv.2))).reverse).lookup name

/-- `TraylinxAuthClient.detectAuthMode` (client.js 569-588). -/
def detectAuthMode (headers : List (String × String)) : String :=
  let auth := (normalizedLookup headers "authorization").getD ""
  if jsStartsWith auth "Bearer " then "bearer"
  else if strTruthy (normalizedLookup headers "x-agent-secret-token") then "custom"
  else "none"

/-- The validation call `validateA2ARequest` dispatches to, or `reject`
when it returns `false` without any network call. -/
inductive A2ADispatch where
  | bearerValidate (token agentUserId : String)
  | customValidate (token agentUserId : String)
  | reject
deriving DecidableEq, Repr

/-- The credential-selection logic of `TraylinxAuthClient.validateA2ARequest`
(client.js 532-567).  In the Bearer branch the source computes the token by
removing, via `replace`, the first occurrence of the string `Bearer ` and
trimming the result; since that branch is guarded by the `startsWith`
check, the removed occurrence is the 7-character prefix, so the token is
the trimmed remainder after dropping 7 characters. -/
def validateA2ARequest (headers : List (String × String)) : A2ADispatch :=
  let authHeader := (normalizedLookup headers "authorization").getD ""
  let agentId := normalizedLookup headers "x-agent-user-id"
  if jsStartsWith authHeader "Bearer " then
    let token := jsTrim (jsDrop authHeader 7)
    if token ≠ "" ∧ strTruthy agentId then
      .bearerValidate token (agentId.getD "")
    else
      -- fall through to the custom-header branch
      let customToken := normalizedLookup headers "x-agent-secret-token"
      if strTruthy customToken ∧ strTruthy agentId then
        .customValidate (customToken.getD "") (agentId.getD "")
      else .reject
  else
    let customToken := normalizedLookup headers "x-agent-secret-token"
    if strTruthy customToken ∧ strTruthy agentId then
      .customValidate (customToken.getD "") (agentId.getD "")
    else .reject

/-! ### Error normalization (`client.js` lines 189-265) -/

/-- The shape of an axios rejection as `_handleRequestError` inspects it:
an optional connection-fault `code`, an optional received HTTP response
(status, statusText, data), and whether a request object was attached. -/
structure AxiosError where
  code : Option String
  response : Option (Int × String × JSVal)
  hasRequest : Bool

/-- Best-effort extraction of a server-provided message for the
`HTTP_ERROR` branch: `responseData.message || responseData.error ||
statusText` with the fallback literal `Unknown error` (client.js 242), for bodies whose
`message`/`error` fields, when present, are strings. -/
def bestEffortMessage (data : JSVal) (statusText : String) : String :=
  let fieldStr : String → Option String := fun k =>
    match data with
    | .vObj fields =>
      match fields.lookup k with
      | some (.vStr s) => some s
      | _ => none
    | _ => none
  if strTruthy (fieldStr "message") then (fieldStr "message").getD ""
  else if strTruthy (fieldStr "error") then (fieldStr "error").getD ""
  else if statusText ≠ "" then statusText
  else "Unknown error"

/-- `TraylinxAuthClient._handleRequestError` (client.js 189-265).  The
source always throws; the thrown error is returned. -/
def handleRequestError (error : AxiosError) (context : String) : TError :=
  if error.code = some "ECONNABORTED" then
    ⟨"NetworkError", "TIMEOUT", 408,
     "Request timeout during " ++ context ++
       ". Check network connectivity and consider increasing timeout."⟩
  else if error.code = some "ENOTFOUND" then
    ⟨"NetworkError", "DNS_ERROR", 0,
     "DNS resolution failed during " ++ context ++
       ". Check the API URL and network connectivity."⟩
  else if error.code = some "ECONNREFUSED" then
    ⟨"NetworkError", "CONNECTION_REFUSED", 0,
     "Connection refused during " ++ context ++
       ". The service may be down or unreachable."⟩
  else if error.code = some "ECONNRESET" then
    ⟨"NetworkError", "CONNECTION_RESET", 0,
     "Connection reset during " ++ context ++
       ". Network connection was interrupted."⟩
  else
    match error.response with
    | some (status, statusText, data) =>
      if status = 401 then
        ⟨"AuthenticationError", "INVALID_CREDENTIALS", 401,
         "Authentication failed during " ++ context ++ ". Check client credentials."⟩
      else if status = 429 then
        ⟨"NetworkError", "RATE_LIMIT", 429,
         "Rate limit exceeded during " ++ context ++ ". Please retry after some time."⟩
      else if 500 ≤ status ∧ status < 600 then
        ⟨"NetworkError", "SERVER_ERROR", status,
         "Server error (" ++ toString status ++ ") during " ++ context ++
           ". The service may be temporarily unavailable."⟩
      else
        ⟨"NetworkError", "HTTP_ERROR", status,
         "HTTP error (" ++ toString status ++ ") during " ++ context ++ ": " ++
           bestEffortMessage data statusText⟩
    | none =>
      if error.hasRequest then
        ⟨"NetworkError", "NO_RESPONSE", 0,
         "Network request failed during " ++ context ++
           ". No response received from server."⟩
      else
        ⟨"TraylinxAuthError", "UNKNOWN_ERROR", 500,
         "Unexpected error during " ++ context ++ ": "⟩

/-! ### Token validation (`client.js` lines 359-403) -/

/-- The outcome of the introspection HTTP exchange as the `await` on
`axiosInstance.post` delivers it to `validateToken`, after the retry
interceptor has finished: either a fulfilled response (status, data) or a
rejection carrying an `AxiosError`. -/
inductive HttpOutcome where
  | resolved (status : Int) (data : JSVal)
  | rejected (error : AxiosError)

/-- `TraylinxAuthClient.validateToken` (client.js 359-403), as a function
of the introspection outcome (the preceding `getAccessToken()` call is
assumed to have succeeded).  `Except.error` is the thrown error.  On a 200
response, `response.data.active` is evaluated inside a try/catch: a thrown
`TypeError` (data `null`/`undefined`) becomes an `AuthenticationError`,
otherwise the result is the strict comparison `=== true`.  Rejections go
through the catch block: errors from `_handleRequestError` are thrown. -/
def validateToken (outcome : HttpOutcome) : Except TError Bool :=
  match outcome with
  | .resolved status data =>
    if status = 200 then
      match data.getProp "active" with
      | .error _ =>
        .error ⟨"AuthenticationError", "INVALID_VALIDATION_RESPONSE", 200,
                "Failed to parse token validation response: "⟩
      | .ok v => .ok v.strictEqTrue
    else if status = 401 then
      .error ⟨"AuthenticationError", "INVALID_ACCESS_TOKEN", 401,
              "Access token invalid for token validation"⟩
    else
      .ok false
  | .rejected err => .error (handleRequestError err "token validation")

/-- The class name of the error a `validateToken` run threw, if it threw. -/
def thrownName : Except TError Bool → Option String
  | .error e => some e.name
  | .ok _ => none

/-! ### RPC credential selection (`client.js` lines 405-434) -/

/-- The headers attached by `TraylinxAuthClient.rpcCall` (client.js
405-434) as a function of the configured `apiBaseUrl`, the two tokens,
the agent user id, the `rpcUrl` argument (`none` for the `null` default;
the `rpcUrl || ...` defaulting also replaces an empty string), and the
`includeAgentCredentials` argument (`none` for the `null` default). -/
def rpcCallHeaders (apiBaseUrl accessToken agentSecretToken agentUserId : String)
    (rpcUrl : Option String) (includeAgentCredentials : Option Bool) :
    List (String × String) :=
  let url := match rpcUrl with
    | none => apiBaseUrl ++ "/a2a/rpc"
    | some s => if s = "" then apiBaseUrl ++ "/a2a/rpc" else s
  let include_ : Bool := match includeAgentCredentials with
    | none => url != apiBaseUrl ++ "/a2a/rpc"
    | some b => b
  if include_ then
    [("Content-Type", "application/json"),
     ("X-Agent-Secret-Token", agentSecretToken),
     ("X-Agent-User-Id", agentUserId)]
  else
    [("Content-Type", "application/json"),
     ("Authorization", "Bearer " ++ accessToken)]

/-! ### Retry policy (`client.js` lines 130-170) -/

/-- Connection-fault codes retried by `_shouldRetry` (client.js 142). -/
def retryableCodes : List String :=
  ["ECONNABORTED", "ENOTFOUND", "ECONNREFUSED", "ECONNRESET", "ETIMEDOUT"]

/-- HTTP statuses retried by `_shouldRetry` (client.js 149). -/
def retryableStatuses : List Int := [429, 500, 502, 503, 504]

/-- `TraylinxAuthClient._shouldRetry` (client.js 130-154).  `code` is the
the `code` property of the error, where (`some ""` is falsy, like the other JS falsy
values mapped to `none`); `response` is the status of the attached HTTP
response, if any. -/
def shouldRetry (maxRetries : Int) (code : Option String) (response : Option Int) :
    Bool :=
  if maxRetries = 0 then false
  else if response = none ∧ ¬ strTruthy code then false
  else if strTruthy code ∧ (code.getD "") ∈ retryableCodes then true
  else
    match response with
    | some status => status ∈ retryableStatuses
    | none => false

/-! ### Exponential backoff (`client.js` lines 156-170) -/

/-- `TraylinxAuthClient._calculateRetryDelay` (client.js 162-170) over ℚ,
with the `Math.random()` draw as the parameter `rand`:
`exponentialDelay = retryDelay * 2^(retryCount-1)`,
`jitter = rand * 0.1 * exponentialDelay`,
result `min (exponentialDelay + jitter) 30000`. -/
def calculateRetryDelay (retryDelay : ℚ) (retryCount : ℕ) (rand : ℚ) : ℚ :=
  let exponentialDelay : ℚ := retryDelay * 2 ^ (retryCount - 1)
  let jitter : ℚ := rand * (1 / 10) * exponentialDelay
  min (exponentialDelay + jitter) 30000

/-! ### Token fetching (`client.js` lines 267-303) -/

/-- The token-endpoint response body, restricted to the three fields
`_fetchTokens` reads; `none` means the field is absent (the `field in
tokenData` membership test is false). -/
structure TokenBody where
  access_token : Option String
  agent_secret_token : Option String
  expires_in : Option Int
deriving DecidableEq, Repr

/-- Field-presence test corresponding to `field in tokenData` for the
three required field names (client.js 283-284). -/
def TokenBody.hasField (body : TokenBody) (field : String) : Bool :=
  if field = "access_token" then body.access_token.isSome
  else if field = "agent_secret_token" then body.agent_secret_token.isSome
  else if field = "expires_in" then body.expires_in.isSome
  else false

/-- `requiredFields` of client.js 283. -/
def requiredFields : List String :=
  ["access_token", "agent_secret_token", "expires_in"]

/-- `missingFields` of client.js 284. -/
def missingFields (body : TokenBody) : List String :=
  requiredFields.filter (fun field => ¬ body.hasField field)

/-- The credential triple `{accessToken, agentSecretToken,
tokenExpiration}` stored on the client (client.js 63-65, 293-295). -/
structure Creds where
  accessToken : Option String
  agentSecretToken : Option String
  tokenExpiration : Option Int
deriving DecidableEq, Repr

/-- The response-processing part of `TraylinxAuthClient._fetchTokens`
(client.js 280-295), given a fulfilled token-endpoint response body and
the value of `Date.now()`: either the thrown `AuthenticationError`
(`MALFORMED_TOKEN_RESPONSE`, client.js 285-291) or the credential state
written on success (client.js 293-295). -/
def fetchTokensProcess (now : Int) (body : TokenBody) : Except TError Creds :=
  let missing := missingFields body
  if missing.isEmpty then
    .ok ⟨some (body.access_token.getD ""),
         some (body.agent_secret_token.getD ""),
         some (now + (body.expires_in.getD 0) * 1000)⟩
  else
    .error ⟨"AuthenticationError", "MALFORMED_TOKEN_RESPONSE", 200,
            "Invalid token response: missing fields " ++
              String.intercalate ", " missing⟩

/-! ### Constructor defaulting (`client.js` lines 31-55) and the Joi
numeric bounds (`validation.js` lines 105-137) -/

/-- JavaScript `x || d` for an optional numeric option value: `undefined`
(here `none`) and the falsy number `0` are both replaced by the default. -/
def jsOrInt (x : Option Int) (d : Int) : Int :=
  match x with
  | none => d
  | some v => if v = 0 then d else v

/-- The three numeric tunables of the `configParams` object built by the
constructor (client.js 37-39), before validation. -/
structure NumericConfig where
  timeout : Int
  maxRetries : Int
  retryDelay : Int
deriving DecidableEq, Repr

/-- The numeric part of `configParams` (client.js 37-39):
`timeout: options.timeout || 30000`, `maxRetries: options.maxRetries || 3`,
`retryDelay: options.retryDelay || 1000`. -/
def constructorNumericConfig (timeout maxRetries retryDelay : Option Int) :
    NumericConfig :=
  ⟨jsOrInt timeout 30000, jsOrInt maxRetries 3, jsOrInt retryDelay 1000⟩

/-- The Joi constraint on `maxRetries` (validation.js 117-121):
`Joi.number().integer().min(0).max(10)`. -/
def maxRetriesValid (n : Int) : Prop := 0 ≤ n ∧ n ≤ 10

instance : DecidablePred maxRetriesValid := fun n => by
  unfold maxRetriesValid
  infer_instance

/-- Joi values (validation.js 105-137) pass through validation unchanged
when they satisfy the bounds, so a `configParams` whose numeric fields
satisfy the Joi constraints is stored as `this.config` as-is. -/
def timeoutValid (n : Int) : Prop := 1000 ≤ n ∧ n ≤ 300000

/-! ### Concurrent token acquisition
(`client.js` lines 267-335 and `tokenManager.js` lines 25-79)

Node.js runs async functions on one thread: code between two `await`
suspension points executes atomically.  The models below make each such
atomic segment one step of a small-step machine, driven by an explicit
schedule of events.  Each pending task is a caller of `getAccessToken`
or `getAgentSecretToken`. -/

/-- Which accessor a concurrent task called. -/
inductive AccessorKind where
  | access
  | secret
deriving DecidableEq, Repr

/-- The token the accessor reads (`this.accessToken` resp.
`this.agentSecretToken`). -/
def Creds.tokenOf (c : Creds) : AccessorKind → Option String
  | .access => c.accessToken
  | .secret => c.agentSecretToken

/-- The staleness guard `!this.<token> || Date.now() >= this.tokenExpiration`
(client.js 306 and 322, tokenManager.js 60 and 71).  A `null`
`tokenExpiration` compares as `0` under JS `>=` coercion. -/
def credStale (kind : AccessorKind) (now : Int) (c : Creds) : Bool :=
  match c.tokenOf kind with
  | none => true
  | some t =>
    if t = "" then true
    else
      match c.tokenExpiration with
      | none => now ≥ 0
      | some e => now ≥ e

/-- Program counter of one concurrent accessor task.  `done v` holds the
value the call resolved with; `failed` is the thrown `TokenExpiredError`
(client.js 310-316). -/
inductive TaskPc where
  | start
  | waiting
  | done (v : Option String)
  | failed
deriving DecidableEq, Repr

/-- A fetched token-endpoint response: access token, agent secret token,
`expires_in` seconds. -/
structure FetchResp where
  access : String
  secret : String
  expiresIn : Int
deriving DecidableEq, Repr

/-- State of the deprecated `TokenManager` (tokenManager.js 12-15) plus
the pool of concurrent accessor tasks.  `fetchPromise` models
`this._fetchPromise !== null`. -/
structure MgrState where
  creds : Creds
  fetchPromise : Bool
  httpCalls : Nat
  tasks : List (AccessorKind × TaskPc)
deriving DecidableEq, Repr

/-- Scheduler events: `call i` runs task `i` from its call site up to its
first suspension (or completion); `resolve r` fulfills the in-flight
fetch with response `r` and runs the fetch continuation; `resume i` runs
a suspended task after the promise it awaits has settled. -/
inductive Ev where
  | call (i : Nat)
  | resolve (r : FetchResp)
  | resume (i : Nat)
deriving DecidableEq, Repr

/-- One step of `TokenManager.getAccessToken`/`getAgentSecretToken`
(tokenManager.js 59-79) and of its fetch continuation
(tokenManager.js 41-56).

* `call i` (lines 60-65 / 71-76): if the guard sees a stale credential
  and `_fetchPromise` is unset, calling `this._fetchTokens()` issues the
  HTTP POST synchronously up to its first `await` (one HTTP call) and the
  returned promise is stored in `_fetchPromise`; the task then awaits it.
  If `_fetchPromise` is already set the task awaits it without a new HTTP
  call.  With a fresh credential the task resolves with the cached token.
* `resolve r`: the fetch continuation stores the tokens and expiration
  (lines 48-50) and the `finally` clears `_fetchPromise` (line 55).
* `resume i` (enabled once no fetch is in flight): the awaiting task
  returns the current token field (lines 67 / 78). -/
def mgrStep (now : Int) (s : MgrState) : Ev → MgrState
  | .call i =>
    match s.tasks.get? i with
    | some (k, .start) =>
      if credStale k now s.creds then
        if s.fetchPromise then
          { s with tasks := s.tasks.set i (k, .waiting) }
        else
          { s with fetchPromise := true,
                   httpCalls := s.httpCalls + 1,
                   tasks := s.tasks.set i (k, .waiting) }
      else
        { s with tasks := s.tasks.set i (k, .done (s.creds.tokenOf k)) }
    | _ => s
  | .resolve r =>
    if s.fetchPromise then
      { s with creds := ⟨some r.access, some r.secret,
                         some (now + r.expiresIn * 1000)⟩,
               fetchPromise := false }
    else s
  | .resume i =>
    match s.tasks.get? i with
    | some (k, .waiting) =>
      if s.fetchPromise then s
      else { s with tasks := s.tasks.set i (k, .done (s.creds.tokenOf k)) }
    | _ => s

/-- Run the `TokenManager` model over a schedule. -/
def mgrRun (now : Int) (s : MgrState) (evs : List Ev) : MgrState :=
  evs.foldl (mgrStep now) s

/-- State of `TraylinxAuthClient` token fields (client.js 63-65) plus the
task pool.  The client has no `_fetchPromise` field: each task that sees a
stale credential awaits its own `this._fetchTokens()` call. -/
structure CliState where
  creds : Creds
  httpCalls : Nat
  tasks : List (AccessorKind × TaskPc)
deriving DecidableEq, Repr

/-- Scheduler events for the client model: `call i` as before;
`resolveOwn i r` fulfills the fetch started by task `i` and resumes it. -/
inductive CEv where
  | call (i : Nat)
  | resolveOwn (i : Nat) (r : FetchResp)
deriving DecidableEq, Repr

/-- One step of `TraylinxAuthClient.getAccessToken`/`getAgentSecretToken`
(client.js 305-335).

* `call i` (lines 306-307 / 322-323): with a stale credential the task
  runs `await this._fetchTokens()`; the axios POST is issued synchronously
  up to its first `await` (one HTTP call per calling task — there is no
  shared in-flight promise) and the task suspends.  With a fresh
  credential it falls through to the truthiness check and resolves.
* `resolveOwn i r`: the fetch continuation of task `i` stores the tokens
  (lines 293-295), then the task resumes at the check on lines 310/326:
  a falsy token throws `TokenExpiredError`, otherwise the token is
  returned. -/
def cliStep (now : Int) (s : CliState) : CEv → CliState
  | .call i =>
    match s.tasks.get? i with
    | some (k, .start) =>
      if credStale k now s.creds then
        { s with httpCalls := s.httpCalls + 1,
                 tasks := s.tasks.set i (k, .waiting) }
      else
        { s with tasks := s.tasks.set i (k, .done (s.creds.tokenOf k)) }
    | _ => s
  | .resolveOwn i r =>
    match s.tasks.get? i with
    | some (k, .waiting) =>
      let creds : Creds := ⟨some r.access, some r.secret,
                            some (now + r.expiresIn * 1000)⟩
      let pc : TaskPc :=
        match creds.tokenOf k with
        | none => .failed
        | some t => if t = "" then .failed else .done (some t)
      { s with creds := creds, tasks := s.tasks.set i (k, pc) }
    | _ => s

/-- Run the `TraylinxAuthClient` model over a schedule. -/
def cliRun (now : Int) (s : CliState) (evs : List CEv) : CliState :=
  evs.foldl (cliStep now) s

/-- Initial `TokenManager` state with two concurrent callers, one per
accessor, and an empty token cache. -/
def mgrInit : MgrState :=
  ⟨⟨none, none, none⟩, false, 0, [(.access, .start), (.secret, .start)]⟩

/-- Initial `TraylinxAuthClient` state with the same two concurrent
callers and an empty token cache. -/
def cliInit : CliState :=
  ⟨⟨none, none, none⟩, 0, [(.access, .start), (.secret, .start)]⟩

end TraylinxAuth

namespace TraylinxAuth

/-! ## Theorems -/

/-- C2: token separation — on every successful call,
`getAgentRequestHeaders()` never contains an `Authorization` key;
`getRequestHeaders()` contains all three of `Authorization`,
`X-Agent-Secret-Token` and `X-Agent-User-Id`; and the `Authorization`
value of `getA2AHeaders()` is `Bearer <agent secret token>`, which is
never `Bearer <access token>` when the two tokens differ. -/
theorem c2_token_separation (accessToken agentSecretToken agentUserId : String)
    (hne : agentSecretToken ≠ accessToken) :
    "Authorization" ∉ (getAgentRequestHeaders agentSecretToken agentUserId).map Prod.fst ∧
    ("Authorization" ∈ (getRequestHeaders accessToken agentSecretToken agentUserId).map Prod.fst ∧
     "X-Agent-Secret-Token" ∈ (getRequestHeaders accessToken agentSecretToken agentUserId).map Prod.fst ∧
     "X-Agent-User-Id" ∈ (getRequestHeaders accessToken agentSecretToken agentUserId).map Prod.fst) ∧
    (getA2AHeaders agentSecretToken agentUserId).lookup "Authorization" =
      some ("Bearer " ++ agentSecretToken) ∧
    (getA2AHeaders agentSecretToken agentUserId).lookup "Authorization" ≠
      some ("Bearer " ++ accessToken) := by
  refine ⟨?_, ⟨?_, ?_, ?_⟩, ?_, ?_⟩
  · simp [getAgentRequestHeaders]
  · simp [getRequestHeaders]
  · simp [getRequestHeaders]
  · simp [getRequestHeaders]
  · simp [getA2AHeaders, List.lookup]
  · simp only [getA2AHeaders, List.lookup]
    intro h
    simp only [beq_self_eq_true, if_pos, Option.some.injEq] at h
    apply hne
    have hdata := congrArg String.data h
    simp [String.data_append] at hdata
    exact String.ext hdata

/-- C2 witness: the token-separation theorem instantiated at concrete
distinct tokens. -/
theorem c2_token_separation_witness :
    "Authorization" ∉ (getAgentRequestHeaders "sec" "uid").map Prod.fst ∧
    ("Authorization" ∈ (getRequestHeaders "acc" "sec" "uid").map Prod.fst ∧
     "X-Agent-Secret-Token" ∈ (getRequestHeaders "acc" "sec" "uid").map Prod.fst ∧
     "X-Agent-User-Id" ∈ (getRequestHeaders "acc" "sec" "uid").map Prod.fst) ∧
    (getA2AHeaders "sec" "uid").lookup "Authorization" = some ("Bearer " ++ "sec") ∧
    (getA2AHeaders "sec" "uid").lookup "Authorization" ≠ some ("Bearer " ++ "acc") :=
  c2_token_separation "acc" "sec" "uid" (by decide)

/-- C5: an HTTP 401 from the introspection endpoint makes `validateToken`
throw an `AuthenticationError` instead of resolving `false` — both for the
real axios path (the 401 response rejects the promise and is normalized by
`_handleRequestError`) and for the in-function `response.status === 401`
branch. -/
theorem c5_introspection_401_surfaced (statusText : String) (data : JSVal)
    (hasReq : Bool) :
    validateToken (.rejected ⟨none, some (401, statusText, data), hasReq⟩) =
      .error ⟨"AuthenticationError", "INVALID_CREDENTIALS", 401,
              "Authentication failed during token validation. Check client credentials."⟩ ∧
    validateToken (.resolved 401 data) =
      .error ⟨"AuthenticationError", "INVALID_ACCESS_TOKEN", 401,
              "Access token invalid for token validation"⟩ ∧
    thrownName (validateToken (.rejected ⟨none, some (401, statusText, data), hasReq⟩)) =
      some "AuthenticationError" := by
  refine ⟨?_, ?_, ?_⟩
  · simp [validateToken, handleRequestError]
  · simp [validateToken]
  · simp [validateToken, handleRequestError, thrownName]

/-- C6: RPC credential exclusivity — `rpcCall` attaches exactly one of
the two credential shapes: the own RPC URL of the authority (or an explicit
`includeAgentCredentials = false`) gets `Authorization: Bearer <access>`
and no `X-Agent-Secret-Token`; any other URL (or an explicit `true`) gets
`X-Agent-Secret-Token` plus `X-Agent-User-Id` and no `Authorization`;
an explicit `includeAgentCredentials` overrides the URL auto-detection. -/
theorem c6_rpc_credential_exclusivity
    (apiBaseUrl accessToken agentSecretToken agentUserId other : String)
    (hother : other ≠ apiBaseUrl ++ "/a2a/rpc") (hne : other ≠ "")
    (r : Option String) (i : Option Bool) :
    rpcCallHeaders apiBaseUrl accessToken agentSecretToken agentUserId
        (some (apiBaseUrl ++ "/a2a/rpc")) none =
      [("Content-Type", "application/json"),
       ("Authorization", "Bearer " ++ accessToken)] ∧
    rpcCallHeaders apiBaseUrl accessToken agentSecretToken agentUserId
        (some other) none =
      [("Content-Type", "application/json"),
       ("X-Agent-Secret-Token", agentSecretToken),
       ("X-Agent-User-Id", agentUserId)] ∧
    rpcCallHeaders apiBaseUrl accessToken agentSecretToken agentUserId r (some false) =
      [("Content-Type", "application/json"),
       ("Authorization", "Bearer " ++ accessToken)] ∧
    rpcCallHeaders apiBaseUrl accessToken agentSecretToken agentUserId r (some true) =
      [("Content-Type", "application/json"),
       ("X-Agent-Secret-Token", agentSecretToken),
       ("X-Agent-User-Id", agentUserId)] ∧
    (("Authorization" ∈ (rpcCallHeaders apiBaseUrl accessToken agentSecretToken
          agentUserId r i).map Prod.fst ∧
      "X-Agent-Secret-Token" ∉ (rpcCallHeaders apiBaseUrl accessToken agentSecretToken
          agentUserId r i).map Prod.fst) ∨
     ("X-Agent-Secret-Token" ∈ (rpcCallHeaders apiBaseUrl accessToken agentSecretToken
          agentUserId r i).map Prod.fst ∧
      "X-Agent-User-Id" ∈ (rpcCallHeaders apiBaseUrl accessToken agentSecretToken
          agentUserId r i).map Prod.fst ∧
      "Authorization" ∉ (rpcCallHeaders apiBaseUrl accessToken agentSecretToken
          agentUserId r i).map Prod.fst)) := by
  have hbase : apiBaseUrl ++ "/a2a/rpc" ≠ "" := by
    intro h
    have := congrArg String.data h
    simp [String.data_append] at this
  refine ⟨?_, ?_, ?_, ?_, ?_⟩
  · simp [rpcCallHeaders, hbase]
  · simp [rpcCallHeaders, hne, hother]
  · simp [rpcCallHeaders]
  · simp [rpcCallHeaders]
  · simp only [rpcCallHeaders]
    split
    · right
      refine ⟨?_, ?_, ?_⟩ <;> simp
    · left
      refine ⟨?_, ?_⟩ <;> simp

/-- C6 witness: exclusivity at a concrete configuration, with the
auto-detected own-URL call, a peer-URL call and both explicit overrides. -/
theorem c6_rpc_credential_exclusivity_witness :
    rpcCallHeaders "https://api.example.com" "acc" "sec" "uid"
        (some ("https://api.example.com" ++ "/a2a/rpc")) none =
      [("Content-Type", "application/json"),
       ("Authorization", "Bearer " ++ "acc")] ∧
    rpcCallHeaders "https://api.example.com" "acc" "sec" "uid"
        (some "https://peer.example.com/rpc") none =
      [("Content-Type", "application/json"),
       ("X-Agent-Secret-Token", "sec"),
       ("X-Agent-User-Id", "uid")] ∧
    rpcCallHeaders "https://api.example.com" "acc" "sec" "uid" none (some false) =
      [("Content-Type", "application/json"),
       ("Authorization", "Bearer " ++ "acc")] ∧
    rpcCallHeaders "https://api.example.com" "acc" "sec" "uid" none (some true) =
      [("Content-Type", "application/json"),
       ("X-Agent-Secret-Token", "sec"),
       ("X-Agent-User-Id", "uid")] ∧
    (("Authorization" ∈ (rpcCallHeaders "https://api.example.com" "acc" "sec" "uid"
          none none).map Prod.fst ∧
      "X-Agent-Secret-Token" ∉ (rpcCallHeaders "https://api.example.com" "acc" "sec" "uid"
          none none).map Prod.fst) ∨
     ("X-Agent-Secret-Token" ∈ (rpcCallHeaders "https://api.example.com" "acc" "sec" "uid"
          none none).map Prod.fst ∧
      "X-Agent-User-Id" ∈ (rpcCallHeaders "https://api.example.com" "acc" "sec" "uid"
          none none).map Prod.fst ∧
      "Authorization" ∉ (rpcCallHeaders "https://api.example.com" "acc" "sec" "uid"
          none none).map Prod.fst)) :=
  c6_rpc_credential_exclusivity "https://api.example.com" "acc" "sec" "uid"
    "https://peer.example.com/rpc" (by decide) (by decide) none none

/-- C7: the retry policy table — with retries enabled, `_shouldRetry`
returns true for every connection-fault code in {ECONNABORTED, ENOTFOUND,
ECONNREFUSED, ECONNRESET, ETIMEDOUT} and for every response status in
{429, 500, 502, 503, 504}; it returns false for statuses 400/401/403/404,
for errors lacking both a response and a recognized code, and always when
the configured `maxRetries` is 0. -/
theorem c7_retry_policy_table (mr : Int) (hmr : mr ≠ 0)
    (c : String) (hc : c ∈ retryableCodes)
    (s : Int) (hs : s ∈ retryableStatuses)
    (b : Int) (hb : b ∈ ([400, 401, 403, 404] : List Int))
    (c2 : String) (hc2 : c2 ∉ retryableCodes)
    (co : Option String) (r : Option Int) :
    shouldRetry mr (some c) none = true ∧
    shouldRetry mr none (some s) = true ∧
    shouldRetry mr none (some b) = false ∧
    shouldRetry mr none none = false ∧
    shouldRetry mr (some c2) none = false ∧
    shouldRetry 0 co r = false := by
  refine ⟨?_, ?_, ?_, ?_, ?_, ?_⟩
  · fin_cases hc <;> simp [shouldRetry, hmr, strTruthy, retryableCodes]
  · fin_cases hs <;> simp [shouldRetry, hmr, strTruthy, retryableStatuses]
  · fin_cases hb <;> simp [shouldRetry, hmr, strTruthy, retryableStatuses]
  · simp [shouldRetry, hmr, strTruthy]
  · by_cases hc2e : c2 = ""
    · simp [shouldRetry, hmr, strTruthy, hc2e]
    · simp [shouldRetry, hmr, strTruthy, hc2e, hc2]
  · simp [shouldRetry]

/-- C7 witness: the retry table at `maxRetries = 3`, code `ECONNRESET`,
retryable status 503, non-retryable status 404, unrecognized code
`EPERM`, and a maxRetries-0 call carrying both a retryable code and a
retryable status. -/
theorem c7_retry_policy_table_witness :
    shouldRetry 3 (some "ECONNRESET") none = true ∧
    shouldRetry 3 none (some 503) = true ∧
    shouldRetry 3 none (some 404) = false ∧
    shouldRetry 3 none none = false ∧
    shouldRetry 3 (some "EPERM") none = false ∧
    shouldRetry 0 (some "ECONNRESET") (some 503) = false :=
  c7_retry_policy_table 3 (by decide) "ECONNRESET" (by decide) 503 (by decide)
    404 (by decide) "EPERM" (by decide) (some "ECONNRESET") (some 503)

/-- C10: retries cannot be disabled through the constructor — the `||`
defaulting on client.js 37-39 replaces an explicit `0` for `maxRetries`
with 3 (and `0` for `timeout` with 30000, `0` for `retryDelay` with 1000)
before validation, even though the Joi schema accepts `maxRetries = 0`
and `_shouldRetry` treats `maxRetries = 0` as never-retry. -/
theorem c10_zero_maxretries_replaced (co : Option String) (r : Option Int) :
    constructorNumericConfig (some 0) (some 0) (some 0) =
      ⟨30000, 3, 1000⟩ ∧
    maxRetriesValid 0 ∧
    maxRetriesValid 3 ∧
    shouldRetry 0 co r = false := by
  refine ⟨rfl, by decide, by decide, ?_⟩
  simp [shouldRetry]

/-- C8: the backoff law — for a 1-based retry attempt `n` and a
`Math.random()` draw `rand ∈ [0, 1)` (so the jitter factor `rand / 10`
lies in `[0, 0.1)`), the delay equals
`min (baseDelay * 2 ^ (n - 1) * (1 + rand / 10)) 30000`; below the cap it
lies in `[base * 2 ^ (n - 1), base * 2 ^ (n - 1) * 1.1]`; and for a fixed
draw it is non-decreasing in `n`. -/
theorem c8_backoff_law (base rand : ℚ) (n : ℕ) (hn : 1 ≤ n) (hb : 0 ≤ base)
    (hr0 : 0 ≤ rand) (hr1 : rand < 1) :
    calculateRetryDelay base n rand =
      min (base * 2 ^ (n - 1) * (1 + rand / 10)) 30000 ∧
    (base * 2 ^ (n - 1) * (1 + rand / 10) ≤ 30000 →
      base * 2 ^ (n - 1) ≤ calculateRetryDelay base n rand ∧
      calculateRetryDelay base n rand ≤ base * 2 ^ (n - 1) * (11 / 10)) ∧
    calculateRetryDelay base n rand ≤ calculateRetryDelay base (n + 1) rand := by
  have hpow : (0 : ℚ) ≤ base * 2 ^ (n - 1) := by positivity
  have hfac0 : (0 : ℚ) ≤ 1 + rand / 10 := by linarith
  have hmain : calculateRetryDelay base n rand =
      min (base * 2 ^ (n - 1) * (1 + rand / 10)) 30000 := by
    unfold calculateRetryDelay
    have harg : base * 2 ^ (n - 1) + rand * (1 / 10) * (base * 2 ^ (n - 1)) =
        base * 2 ^ (n - 1) * (1 + rand / 10) := by ring
    exact congrArg (fun x => min x 30000) harg
  refine ⟨hmain, ?_, ?_⟩
  · intro hcap
    rw [hmain, min_eq_left hcap]
    constructor
    · nlinarith
    · nlinarith
  · have hmain2 : calculateRetryDelay base (n + 1) rand =
        min (base * 2 ^ n * (1 + rand / 10)) 30000 := by
      unfold calculateRetryDelay
      simp only [Nat.add_sub_cancel]
      have harg2 : base * 2 ^ n + rand * (1 / 10) * (base * 2 ^ n) =
          base * 2 ^ n * (1 + rand / 10) := by ring
      exact congrArg (fun x => min x 30000) harg2
    rw [hmain, hmain2]
    apply min_le_min _ le_rfl
    apply mul_le_mul_of_nonneg_right _ hfac0
    apply mul_le_mul_of_nonneg_left _ hb
    exact pow_le_pow_right₀ one_le_two (Nat.sub_le n 1)

/-- C8 witness: the backoff law at `baseDelay = 1000`, attempt 2 and
draw `rand = 1/2`, where the uncapped value `1000 * 2 * 1.05 = 2100` is
below the 30000 cap. -/
theorem c8_backoff_law_witness :
    calculateRetryDelay 1000 2 (1 / 2) =
      min (1000 * 2 ^ (2 - 1) * (1 + (1 / 2 : ℚ) / 10)) 30000 ∧
    ((1000 : ℚ) * 2 ^ (2 - 1) * (1 + (1 / 2 : ℚ) / 10) ≤ 30000 →
      (1000 : ℚ) * 2 ^ (2 - 1) ≤ calculateRetryDelay 1000 2 (1 / 2) ∧
      calculateRetryDelay 1000 2 (1 / 2) ≤ 1000 * 2 ^ (2 - 1) * (11 / 10)) ∧
    calculateRetryDelay 1000 2 (1 / 2) ≤ calculateRetryDelay 1000 (2 + 1) (1 / 2) :=
  c8_backoff_law 1000 (1 / 2) 2 (by norm_num) (by norm_num) (by norm_num)
    (by norm_num)

/-- C9: a token-endpoint response body missing any of `access_token`,
`agent_secret_token`, `expires_in` fails with a `MALFORMED_TOKEN_RESPONSE`
error whose message names exactly the missing fields (in particular, a
body missing both `agent_secret_token` and `expires_in` produces a
message naming both); with all three fields present the refresh succeeds
and sets `tokenExpiration = now + expires_in * 1000` for any `expires_in`,
zero and negative included. -/
theorem c9_malformed_token_response (now : Int) (body : TokenBody)
    (h1 : body.access_token.isSome = true) (h2 : body.agent_secret_token = none)
    (h3 : body.expires_in = none) (a s : String) (e : Int) :
    fetchTokensProcess now body =
      .error ⟨"AuthenticationError", "MALFORMED_TOKEN_RESPONSE", 200,
              "Invalid token response: missing fields agent_secret_token, expires_in"⟩ ∧
    fetchTokensProcess now ⟨some a, some s, some e⟩ =
      .ok ⟨some a, some s, some (now + e * 1000)⟩ ∧
    (∀ b : TokenBody, ∀ f : String,
      f ∈ missingFields b ↔ (f ∈ requiredFields ∧ b.hasField f = false)) ∧
    (∀ b : TokenBody, missingFields b ≠ [] →
      fetchTokensProcess now b =
        .error ⟨"AuthenticationError", "MALFORMED_TOKEN_RESPONSE", 200,
                "Invalid token response: missing fields " ++
                  String.intercalate ", " (missingFields b)⟩) := by
  refine ⟨?_, rfl, ?_, ?_⟩
  · obtain ⟨oa, ob, oc⟩ := body
    cases oa with
    | none => simp at h1
    | some av =>
      simp only at h2 h3
      subst h2
      subst h3
      rfl
  · intro b f
    simp [missingFields, List.mem_filter]
  · intro b hb
    have hemp : (missingFields b).isEmpty = false := by
      simpa [List.isEmpty_iff] using hb
    simp [fetchTokensProcess, hemp]

/-- C9 witness: the malformed-response theorem at a body carrying only
`access_token`, and a complete body with the negative `expires_in = -100`
(expired-on-arrival). -/
theorem c9_malformed_token_response_witness :
    fetchTokensProcess 5000 ⟨some "tok", none, none⟩ =
      .error ⟨"AuthenticationError", "MALFORMED_TOKEN_RESPONSE", 200,
              "Invalid token response: missing fields agent_secret_token, expires_in"⟩ ∧
    fetchTokensProcess 5000 ⟨some "A", some "S", some (-100)⟩ =
      .ok ⟨some "A", some "S", some (5000 + (-100) * 1000)⟩ ∧
    (∀ b : TokenBody, ∀ f : String,
      f ∈ missingFields b ↔ (f ∈ requiredFields ∧ b.hasField f = false)) ∧
    (∀ b : TokenBody, missingFields b ≠ [] →
      fetchTokensProcess 5000 b =
        .error ⟨"AuthenticationError", "MALFORMED_TOKEN_RESPONSE", 200,
                "Invalid token response: missing fields " ++
                  String.intercalate ", " (missingFields b)⟩) :=
  c9_malformed_token_response 5000 ⟨some "tok", none, none⟩ rfl rfl rfl
    "A" "S" (-100)

/-- C4 counterexample: the claim says a `null` 200-status introspection
body makes `validateToken` resolve `false`; on the code,
`response.data.active` throws on a `null` body and `validateToken`
rejects with an `AuthenticationError` instead. -/
theorem c4_null_body_raises :
    validateToken (.resolved 200 .vNull) =
      .error ⟨"AuthenticationError", "INVALID_VALIDATION_RESPONSE", 200,
              "Failed to parse token validation response: "⟩ ∧
    validateToken (.resolved 200 .vNull) ≠ .ok false := by
  refine ⟨rfl, ?_⟩
  simp [validateToken, JSVal.getProp]

/-- C4 (amended): for every 200-status introspection response whose body
is an object, `validateToken` resolves `true` iff the `active` field of the
field is strictly boolean `true` — the string `"true"`, boolean `false`
and a missing `active` field all resolve `false` without an error; a
`null` body instead raises an `AuthenticationError`. -/
theorem c4_strict_active_flag (fields : List (String × JSVal)) :
    validateToken (.resolved 200 (.vObj fields)) =
      .ok (((fields.lookup "active").getD .vUndefined).strictEqTrue) ∧
    validateToken (.resolved 200 (.vObj [("active", .vBool true)])) = .ok true ∧
    validateToken (.resolved 200 (.vObj [("active", .vStr "true")])) = .ok false ∧
    validateToken (.resolved 200 (.vObj [("active", .vBool false)])) = .ok false ∧
    validateToken (.resolved 200 (.vObj [])) = .ok false ∧
    validateToken (.resolved 200 .vNull) =
      .error ⟨"AuthenticationError", "INVALID_VALIDATION_RESPONSE", 200,
              "Failed to parse token validation response: "⟩ :=
  ⟨rfl, rfl, rfl, rfl, rfl, rfl⟩

/-- C5 witness: the 401 introspection outcomes at a concrete rejected
response and a concrete resolved response. -/
theorem c5_introspection_401_surfaced_witness :
    validateToken (.rejected ⟨none, some (401, "Unauthorized", .vObj []), true⟩) =
      .error ⟨"AuthenticationError", "INVALID_CREDENTIALS", 401,
              "Authentication failed during token validation. Check client credentials."⟩ ∧
    validateToken (.resolved 401 (.vObj [])) =
      .error ⟨"AuthenticationError", "INVALID_ACCESS_TOKEN", 401,
              "Access token invalid for token validation"⟩ ∧
    thrownName (validateToken (.rejected ⟨none, some (401, "Unauthorized", .vObj []), true⟩)) =
      some "AuthenticationError" :=
  c5_introspection_401_surfaced "Unauthorized" (.vObj []) true

/-- C4 amended witness: the strict-flag theorem at the concrete body
carrying `active = true`. -/
theorem c4_strict_active_flag_witness :
    validateToken (.resolved 200 (.vObj [("active", .vBool true)])) =
      .ok (((([("active", JSVal.vBool true)]).lookup "active").getD .vUndefined).strictEqTrue) ∧
    validateToken (.resolved 200 (.vObj [("active", .vBool true)])) = .ok true ∧
    validateToken (.resolved 200 (.vObj [("active", .vStr "true")])) = .ok false ∧
    validateToken (.resolved 200 (.vObj [("active", .vBool false)])) = .ok false ∧
    validateToken (.resolved 200 (.vObj [])) = .ok false ∧
    validateToken (.resolved 200 .vNull) =
      .error ⟨"AuthenticationError", "INVALID_VALIDATION_RESPONSE", 200,
              "Failed to parse token validation response: "⟩ :=
  c4_strict_active_flag [("active", .vBool true)]

/-- C10 witness: the constructor-defaulting theorem at a concrete error
carrying both a retryable code and a retryable status. -/
theorem c10_zero_maxretries_replaced_witness :
    constructorNumericConfig (some 0) (some 0) (some 0) =
      ⟨30000, 3, 1000⟩ ∧
    maxRetriesValid 0 ∧
    maxRetriesValid 3 ∧
    shouldRetry 0 (some "ECONNRESET") (some 500) = false :=
  c10_zero_maxretries_replaced (some "ECONNRESET") (some 500)

/-- C3 counterexample: the claim says `detectAuthMode` returns `bearer`
only when an agent-user-id header is also present; on the code it
classifies on the `Bearer ` prefix alone — a header map carrying only
`Authorization: Bearer x` is classified `bearer` although no
agent-user-id header exists. -/
theorem c3_detect_bearer_without_userid :
    detectAuthMode [("Authorization", "Bearer x")] = "bearer" ∧
    normalizedLookup [("Authorization", "Bearer x")] "x-agent-user-id" = none :=
  ⟨by decide, by decide⟩

/-- C3 (amended): after case-insensitive name normalization,
`validateA2ARequest` takes the Bearer validation path only when the
`Authorization` value starts with the literal `Bearer ` prefix AND a
truthy agent-user-id header is present; `detectAuthMode`, however,
returns `bearer` iff the `Authorization` value starts with the prefix,
regardless of the agent-user-id header. -/
theorem c3_bearer_dispatch_requires_userid (headers : List (String × String))
    (t u : String) (h : validateA2ARequest headers = .bearerValidate t u) :
    jsStartsWith ((normalizedLookup headers "authorization").getD "") "Bearer " = true ∧
    strTruthy (normalizedLookup headers "x-agent-user-id") = true ∧
    (detectAuthMode headers = "bearer" ↔
      jsStartsWith ((normalizedLookup headers "authorization").getD "") "Bearer " = true) := by
  have hdetect : detectAuthMode headers = "bearer" ↔
      jsStartsWith ((normalizedLookup headers "authorization").getD "") "Bearer " = true := by
    unfold detectAuthMode
    by_cases hpre : jsStartsWith ((normalizedLookup headers "authorization").getD "") "Bearer " = true
    · simp [hpre]
    · simp only [Bool.not_eq_true] at hpre
      simp [hpre]
      split <;> simp
  simp only [validateA2ARequest] at h
  split at h
  · next hpre =>
    split at h
    · next hguard => exact ⟨hpre, hguard.2, hdetect⟩
    · split at h
      · simp at h
      · simp at h
  · split at h
    · simp at h
    · simp at h

/-- C3 amended witness: the Bearer dispatch at a concrete header map
carrying both the prefix and the user id. -/
theorem c3_bearer_dispatch_requires_userid_witness :
    jsStartsWith ((normalizedLookup [("Authorization", "Bearer tok"), ("X-Agent-User-Id", "u1")]
        "authorization").getD "") "Bearer " = true ∧
    strTruthy (normalizedLookup [("Authorization", "Bearer tok"), ("X-Agent-User-Id", "u1")]
        "x-agent-user-id") = true ∧
    (detectAuthMode [("Authorization", "Bearer tok"), ("X-Agent-User-Id", "u1")] = "bearer" ↔
      jsStartsWith ((normalizedLookup [("Authorization", "Bearer tok"), ("X-Agent-User-Id", "u1")]
          "authorization").getD "") "Bearer " = true) :=
  c3_bearer_dispatch_requires_userid
    [("Authorization", "Bearer tok"), ("X-Agent-User-Id", "u1")] "tok" "u1" (by decide)

/-- C1: refresh coalescing fails on `TraylinxAuthClient` — two concurrent
`getAccessToken`/`getAgentSecretToken` calls that both observe an empty
token cache each trigger their own refresh HTTP call (2 calls, not 1),
because the client awaits `this._fetchTokens()` directly with no shared
in-flight promise; the deprecated `TokenManager`, by contrast, coalesces
the same two concurrent calls into exactly one refresh HTTP call via
`this._fetchPromise`, and both callers resolve with the tokens of that
single response. -/
theorem c1_client_refresh_not_coalesced :
    (cliRun 1000 cliInit [.call 0, .call 1]).httpCalls = 2 ∧
    (cliRun 1000 cliInit [.call 0, .call 1,
        .resolveOwn 0 ⟨"tokA1", "tokS1", 3600⟩,
        .resolveOwn 1 ⟨"tokA2", "tokS2", 3600⟩]).httpCalls = 2 ∧
    mgrRun 1000 mgrInit [.call 0, .call 1, .resolve ⟨"tokA", "tokS", 3600⟩,
        .resume 0, .resume 1] =
      ⟨⟨some "tokA", some "tokS", some 3601000⟩, false, 1,
       [(.access, .done (some "tokA")), (.secret, .done (some "tokS"))]⟩ := by
  refine ⟨rfl, rfl, by decide⟩

end TraylinxAuth
